import Mathlib

/-!
Shallow embedding of the go-containerregistry client core:

* `v1/remote/image.go` — the remote image accessor (manifest, config,
  blob, layer, blob-set operations), embedded as explicit functions from
  a `World` (the HTTP client plus the JSON decoders, both of which are
  external effects for this package) to a Go-shaped result paired with
  the list of HTTP requests issued.
* `v1/remote/transport/transport.go` — the authentication handshake
  `New`, embedded over a modelled ping result and an abstract token
  exchange.

Machine integers (`int64`) are modelled as `Int`; byte streams as
`List Nat`; Go `(value, error)` pairs as `Except` when the value is nil
on error, and as a literal pair when both components are populated
(as in `BlobSize`, which returns `(-1, err)`).
-/

namespace ContainerRegistry

/-- An algorithm-tagged content hash (`v1.Hash`): `{algorithm, hex}`. -/
structure Hash where
  algorithm : String
  hex : String
deriving DecidableEq, Repr

/-- Canonical registry rendering `"algorithm:hex"` (`v1.Hash.String`). -/
def Hash.toString (h : Hash) : String := h.algorithm ++ ":" ++ h.hex

/-- A content descriptor inside a manifest (media type, size, digest). -/
structure Descriptor where
  mediaType : String
  size : Int
  digest : Hash
deriving DecidableEq, Repr

/-- A registry manifest (`v1.Manifest`): config descriptor plus the
ordered layer descriptors. -/
structure Manifest where
  schemaVersion : Int
  mediaType : String
  config : Descriptor
  layers : List Descriptor
deriving DecidableEq, Repr

/-- The rootfs section of an image config: the ordered diff IDs. -/
structure RootFS where
  fsType : String
  diffIDs : List Hash
deriving DecidableEq, Repr

/-- An image config file (`v1.ConfigFile`), reduced to the fields the
remote accessor reads. -/
structure ConfigFile where
  rootFS : RootFS
deriving DecidableEq, Repr

/-- Modelled from the spec: the `v1/types` media-type constant for
Docker manifest schema 2, sent as the `Accept` header on manifest
requests (the `v1/types` source file is not part of this corpus). -/
def DockerManifestSchema2 : String :=
  "application/vnd.docker.distribution.manifest.v2+json"

/-- Modelled from the spec: the `v1/types` media-type constant for the
OCI manifest schema 1 (the `v1/types` source file is not part of this
corpus). -/
def OCIManifestSchema1 : String :=
  "application/vnd.oci.image.manifest.v1+json"

/-- HTTP method of a request issued by the remote accessor. -/
inductive Method where
  | GET
  | HEAD
deriving DecidableEq, Repr

/-- An outgoing HTTP request: method, URL path, optional Accept header. -/
structure Request where
  method : Method
  url : String
  accept : Option String
deriving DecidableEq, Repr

/-- An HTTP response as observed by the accessor: status code, the
`ContentLength` field (`-1` when unknown, as in Go's `net/http`), and
the body bytes. -/
structure Response where
  statusCode : Nat
  contentLength : Int
  body : List Nat
deriving DecidableEq, Repr

/-- The error values the embedded code can produce, one constructor per
distinguishable failure the embedded functions return. -/
inductive Err where
  | net (msg : String)
  | parse (msg : String)
  | layerNotFound (h : Hash)
  | notImplemented (op : String) (h : Hash)
  | indexPanic
  | authHandshakeFailed (msg : String)
  | unsupportedChallenge (scheme : String)
deriving DecidableEq, Repr

/-- The external world an `image` value talks to: the authenticated
HTTP client (network failures are the `Except.error` branch; non-2xx
responses are ordinary `Except.ok` values, as with Go's `http.Client`),
and the JSON decoders `v1.ParseManifest` / `v1.ParseConfigFile`, which
live outside this corpus and are therefore abstract. -/
structure World where
  client : Request → Except String Response
  parseManifest : List Nat → Except String Manifest
  parseConfigFile : List Nat → Except String ConfigFile

/-- A computation of the remote accessor: reads the world, returns a Go
`(value, error)` result and the list of HTTP requests it issued. Go's
early-return-on-error idiom is embedded as an explicit match at every
call site. -/
def ImageM (α : Type) := World → Except Err α × List Request

/-- The remote image accessor (`remote.image`): a reference's registry
host, repository path and identifier (tag or digest). -/
structure Image where
  registry : String
  repository : String
  identifier : String
deriving DecidableEq, Repr

/-- `image.url`: the path `/v2/{repository}/{resource}/{identifier}`. -/
def Image.url (i : Image) (resource ident : String) : String :=
  "/v2/" ++ i.repository ++ "/" ++ resource ++ "/" ++ ident

/-- The request `image.Manifest` issues: GET the manifest endpoint with
the schema-2 Accept header. -/
def Image.manifestRequest (i : Image) : Request :=
  ⟨Method.GET, i.url "manifests" i.identifier, some DockerManifestSchema2⟩

/-- `image.Manifest`: GET the manifest endpoint and decode the body via
`v1.ParseManifest`. No status-code check is performed. -/
def Image.manifest (i : Image) : ImageM Manifest := fun w =>
  match w.client i.manifestRequest with
  | Except.error e => (Except.error (Err.net e), [i.manifestRequest])
  | Except.ok resp =>
    match w.parseManifest resp.body with
    | Except.error e => (Except.error (Err.parse e), [i.manifestRequest])
    | Except.ok m => (Except.ok m, [i.manifestRequest])

/-- `image.FSLayers`: the ordered distribution digests of the manifest
layers. -/
def Image.fsLayers (i : Image) : ImageM (List Hash) := fun w =>
  match i.manifest w with
  | (Except.error e, tr) => (Except.error e, tr)
  | (Except.ok m, tr) => (Except.ok (m.layers.map Descriptor.digest), tr)

/-- `image.ConfigName`: the manifest's config digest. -/
def Image.configName (i : Image) : ImageM Hash := fun w =>
  match i.manifest w with
  | (Except.error e, tr) => (Except.error e, tr)
  | (Except.ok m, tr) => (Except.ok m.config.digest, tr)

/-- The request `image.Blob` / `image.BlobSize` issue for a digest. -/
def Image.blobRequest (i : Image) (m : Method) (h : Hash) : Request :=
  ⟨m, i.url "blobs" h.toString, none⟩

/-- `image.Blob`: GET `/v2/{repo}/blobs/{digest}` and hand back the
response body. No status-code check is performed. -/
def Image.blob (i : Image) (h : Hash) : ImageM (List Nat) := fun w =>
  match w.client (i.blobRequest Method.GET h) with
  | Except.error e => (Except.error (Err.net e), [i.blobRequest Method.GET h])
  | Except.ok resp => (Except.ok resp.body, [i.blobRequest Method.GET h])

/-- `image.ConfigFile`: resolve the config digest, fetch that blob and
decode it via `v1.ParseConfigFile`. -/
def Image.configFile (i : Image) : ImageM ConfigFile := fun w =>
  match i.configName w with
  | (Except.error e, tr) => (Except.error e, tr)
  | (Except.ok h, tr) =>
    match i.blob h w with
    | (Except.error e, tr2) => (Except.error e, tr ++ tr2)
    | (Except.ok body, tr2) =>
      match w.parseConfigFile body with
      | Except.error e => (Except.error (Err.parse e), tr ++ tr2)
      | Except.ok c => (Except.ok c, tr ++ tr2)

/-- `image.DiffIDs`: the ordered diff IDs of the config file. -/
def Image.diffIDs (i : Image) : ImageM (List Hash) := fun w =>
  match i.configFile w with
  | (Except.error e, tr) => (Except.error e, tr)
  | (Except.ok c, tr) => (Except.ok c.rootFS.diffIDs, tr)

/-- `image.BlobSet`: insert every layer digest, then the config digest,
into a fresh set (Go builds a map keyed by `v1.Hash`, used as a set). -/
def Image.blobSet (i : Image) : ImageM (Finset Hash) := fun w =>
  match i.fsLayers w with
  | (Except.error e, tr) => (Except.error e, tr)
  | (Except.ok layers, tr) =>
    let set1 := layers.foldl (fun s h => insert h s) (∅ : Finset Hash)
    match i.configName w with
    | (Except.error e, tr2) => (Except.error e, tr ++ tr2)
    | (Except.ok config, tr2) => (Except.ok (insert config set1), tr ++ tr2)

/-- `image.BlobSize`: HEAD the blob endpoint; on client success return
`(resp.ContentLength, nil)` with no status-code check; on client error
return `(-1, err)`. The Go shape `(int64, error)` is kept literally. -/
def Image.blobSize (i : Image) (h : Hash) :
    World → (Int × Option Err) × List Request := fun w =>
  match w.client (i.blobRequest Method.HEAD h) with
  | Except.error e => ((-1, some (Err.net e)), [i.blobRequest Method.HEAD h])
  | Except.ok resp => ((resp.contentLength, none), [i.blobRequest Method.HEAD h])

/-- `image.Layer`: scan the manifest layer digests (`FSLayers`) for the
argument; on the first match at index `n`, fetch `Blob(diffids[n])`;
when no layer digest matches, fail with the could-not-find-Layer-by-
diffid error. Go's panicking index expression `diffids[n]` is modelled
by `Err.indexPanic` when out of range. -/
def Image.layer (i : Image) (h : Hash) : ImageM (List Nat) := fun w =>
  match i.fsLayers w with
  | (Except.error e, tr) => (Except.error e, tr)
  | (Except.ok layers, tr) =>
    match i.diffIDs w with
    | (Except.error e, tr2) => (Except.error e, tr ++ tr2)
    | (Except.ok diffids, tr2) =>
      match layers.findIdx? (· = h) with
      | some n =>
        match diffids.get? n with
        | some d =>
          match i.blob d w with
          | (r, tr3) => (r, tr ++ tr2 ++ tr3)
        | none => (Except.error Err.indexPanic, tr ++ tr2)
      | none => (Except.error (Err.layerNotFound h), tr ++ tr2)

/-- `image.UncompressedBlob`: always the NYI error, no request. -/
def Image.uncompressedBlob (i : Image) (h : Hash) : ImageM (List Nat) :=
  fun _ => (Except.error (Err.notImplemented "remote.UncompressedBlob" h), [])

/-- `image.UncompressedLayer`: always the NYI error, no request. -/
def Image.uncompressedLayer (i : Image) (h : Hash) : ImageM (List Nat) :=
  fun _ => (Except.error (Err.notImplemented "remote.UncompressedLayer" h), [])

/-- `image.MediaType`: the constant `types.OCIManifestSchema1`, no
error, no request. -/
def Image.mediaType (i : Image) : ImageM String :=
  fun _ => (Except.ok OCIManifestSchema1, [])

/-- A static credential, as resolved by the external `authn` keychain. -/
structure Authenticator where
  username : String
  password : String
deriving DecidableEq, Repr

/-- A parsed reference (`name.Reference`, external collaborator): the
registry host rendering (`ref.Context().Registry.String()`), repository
path, identifier, and the scope-rendering capability `ref.Scope`. -/
structure Reference where
  registry : String
  repository : String
  identifier : String
  scopeOf : String → String

/-- The challenge classification a ping produces (`anonymous`, `basic`,
`bearer`, or an unrecognized scheme). -/
inductive ChallengeKind where
  | anonymous
  | basic
  | bearer
  | other (scheme : String)
deriving DecidableEq, Repr

/-- The result of pinging `/v2/`: the challenge kind and the parsed
`key="value"` parameters of the `WWW-Authenticate` header. -/
structure PingResp where
  challenge : ChallengeKind
  parameters : List (String × String)
deriving DecidableEq, Repr

/-- The observable outcome of the ping HTTP exchange: the status code
and, when present and parseable, the challenge header's scheme token
with its parameter list. -/
structure PingOutcome where
  status : Nat
  challengeHeader : Option (String × List (String × String))
deriving DecidableEq, Repr

/-- Modelled from the spec: scheme-token classification performed by
`ping` (the `ping.go` source is not part of this corpus) — `Basic` and
`Bearer` map to their challenge kinds, anything else is unrecognized. -/
def classifyScheme (s : String) : ChallengeKind :=
  if s = "Basic" then ChallengeKind.basic
  else if s = "Bearer" then ChallengeKind.bearer
  else ChallengeKind.other s

/-- Modelled from the spec: `ping` (the `ping.go` source is not part of
this corpus). HTTP 200 yields the anonymous challenge; HTTP 401 with a
parseable `WWW-Authenticate` header yields that scheme's challenge and
parameters; any other outcome fails the handshake. -/
def ping (po : PingOutcome) : Except Err PingResp :=
  if po.status = 200 then
    Except.ok ⟨ChallengeKind.anonymous, []⟩
  else if po.status = 401 then
    match po.challengeHeader with
    | some (scheme, params) => Except.ok ⟨classifyScheme scheme, params⟩
    | none => Except.error (Err.authHandshakeFailed "unsupported status without challenge")
  else
    Except.error (Err.authHandshakeFailed "unsupported status")

/-- The transports `transport.New` can return: the caller-supplied base
transport unmodified, the basic wrapper, or the bearer wrapper carrying
its realm, service, scope and current token. -/
inductive Transport where
  | base
  | basicT (auth : Authenticator)
  | bearerT (basic : Authenticator) (realm service scope token : String)
deriving DecidableEq, Repr

/-- Modelled from the spec: the `Authorization` header each transport
attaches to an outgoing request (the `basic.go` / `bearer.go` sources
are not part of this corpus; base64 of the Basic credential is kept
abstract as the raw pair rendering). The base transport is the caller's
and attaches nothing. -/
def Transport.authorizationHeader : Transport → Option String
  | Transport.base => none
  | Transport.basicT a => some ("Basic " ++ a.username ++ ":" ++ a.password)
  | Transport.bearerT _ _ _ _ tok => some ("Bearer " ++ tok)

/-- The outcome of `bearerTransport.refresh` (the `bearer.go` source is
not part of this corpus): given the realm, service, scope and Basic
credential, the token exchange yields a bearer token or an error. -/
def RefreshFn := String → String → String → Authenticator → Except Err String

/-- `transport.New`: ping, then dispatch on the challenge. Anonymous
returns the base transport; Basic wraps it; Bearer requires `realm`,
defaults `service` to the registry, renders the scope, performs the
initial token exchange and returns the bearer transport only when that
exchange succeeds; an unrecognized challenge fails. -/
def New (ref : Reference) (auth : Authenticator) (po : PingOutcome)
    (a : String) (refresh : RefreshFn) : Except Err Transport :=
  match ping po with
  | Except.error e => Except.error e
  | Except.ok pr =>
    match pr.challenge with
    | ChallengeKind.anonymous => Except.ok Transport.base
    | ChallengeKind.basic => Except.ok (Transport.basicT auth)
    | ChallengeKind.bearer =>
      match pr.parameters.lookup "realm" with
      | none => Except.error (Err.authHandshakeFailed "malformed www-authenticate, missing realm")
      | some realm =>
        let service := (pr.parameters.lookup "service").getD ref.registry
        let scope := ref.scopeOf a
        match refresh realm service scope auth with
        | Except.error e => Except.error e
        | Except.ok tok =>
          Except.ok (Transport.bearerT auth realm service scope tok)
    | ChallengeKind.other s => Except.error (Err.unsupportedChallenge s)

/-! Concrete fixtures: a one-layer image whose layer distribution
digest and diff ID differ (as for any compressed layer), served by a
deterministic registry world. -/

/-- Distribution digest of the test image's single layer. -/
def hLayer : Hash := ⟨"sha256", "aaaa"⟩

/-- Diff ID of the test image's single layer. -/
def hDiff : Hash := ⟨"sha256", "bbbb"⟩

/-- Config digest of the test image. -/
def hConfig : Hash := ⟨"sha256", "cccc"⟩

/-- The test manifest: one layer at `hLayer`, config at `hConfig`. -/
def testManifest : Manifest :=
  ⟨2, DockerManifestSchema2,
   ⟨"application/vnd.docker.container.image.v1+json", 10, hConfig⟩,
   [⟨"application/vnd.docker.image.rootfs.diff.tar.gzip", 20, hLayer⟩]⟩

/-- The test config file: one diff ID, `hDiff`. -/
def testConfigFile : ConfigFile := ⟨⟨"layers", [hDiff]⟩⟩

/-- The test image reference fields. -/
def testImage : Image := ⟨"registry.example.com", "library/repo", "latest"⟩

/-- A deterministic registry world for `testImage`: the manifest body is
byte 0, the config blob byte 1, the blob at the distribution digest
byte 2; the URL at the diff ID answers 404 with body byte 3 and
Content-Length 77 (a registry stores blobs under distribution digests
only); everything else 404s empty. -/
def testWorld : World :=
  ⟨fun req =>
    if req.url = "/v2/library/repo/manifests/latest" then Except.ok ⟨200, 100, [0]⟩
    else if req.url = "/v2/library/repo/blobs/sha256:cccc" then Except.ok ⟨200, 50, [1]⟩
    else if req.url = "/v2/library/repo/blobs/sha256:aaaa" then Except.ok ⟨200, 60, [2]⟩
    else if req.url = "/v2/library/repo/blobs/sha256:bbbb" then Except.ok ⟨404, 77, [3]⟩
    else Except.ok ⟨404, -1, []⟩,
   fun b => if b = [0] then Except.ok testManifest else Except.error "invalid manifest",
   fun b => if b = [1] then Except.ok testConfigFile else Except.error "invalid config"⟩

/-- A world whose client fails every request at the transport level. -/
def failWorld : World :=
  ⟨fun _ => Except.error "connection refused",
   fun _ => Except.error "invalid manifest",
   fun _ => Except.error "invalid config"⟩

/-- Claim C1: the spec says `Layer(d)` looks `d` up in the config's
diff IDs and fetches the blob at the same-position manifest layer
digest, failing with `LayerNotFound` only when `d` is absent from the
diff IDs. The code does the reverse — it matches `d` against the
manifest layer digests and fetches the blob at the same-position diff
ID. Evaluated at the concrete one-layer test image (diff IDs =
`[hDiff]`, layers = `[hLayer]`, bodies as in `testWorld`): requesting
the diff ID fails with `LayerNotFound` even though it occupies position
0 of the diff IDs, and requesting the distribution digest fetches the
blob stored at the diff-ID URL (body `[3]`), not the claimed
`layers[0]` blob (body `[2]`). -/
theorem layer_lookup_is_swapped :
    (testImage.layer hDiff testWorld).fst = Except.error (Err.layerNotFound hDiff)
    ∧ (testImage.layer hLayer testWorld).fst = Except.ok [3] :=
  ⟨rfl, rfl⟩

/-- Claim C2 (counterexample): at the concrete blob URL that answers
HTTP 404 with body `[3]` and Content-Length 77, `Blob` returns the
response body and `BlobSize` returns the content length with a nil
error — no `BlobFetchFailed` (or any other) error is produced for the
non-2xx status. -/
theorem blob_non2xx_returns_payload :
    (testImage.blob hDiff testWorld).fst = Except.ok [3]
    ∧ (testImage.blobSize hDiff testWorld).fst = (77, none) :=
  ⟨rfl, rfl⟩

/-- Claim C2 (amended): whenever the underlying blob GET / HEAD request
itself succeeds, `Blob` returns the response body and `BlobSize` the
Content-Length with a nil error, for every status code — errors arise
only from transport-level request failure. -/
theorem blob_and_blobSize_ignore_status (i : Image) (h : Hash) (w : World)
    (respG respH : Response)
    (hg : w.client (i.blobRequest Method.GET h) = Except.ok respG)
    (hh : w.client (i.blobRequest Method.HEAD h) = Except.ok respH) :
    (i.blob h w).fst = Except.ok respG.body
    ∧ (i.blobSize h w).fst = (respH.contentLength, none) := by
  constructor
  · unfold Image.blob
    rw [hg]
  · unfold Image.blobSize
    rw [hh]

/-- Witness for the amended C2 at the concrete 404 blob response. -/
theorem blob_and_blobSize_ignore_status_witness :
    (testImage.blob hDiff testWorld).fst = Except.ok [3]
    ∧ (testImage.blobSize hDiff testWorld).fst = (77, none) :=
  blob_and_blobSize_ignore_status testImage hDiff testWorld
    ⟨404, 77, [3]⟩ ⟨404, 77, [3]⟩ rfl rfl

/-- Folding `insert` over a list of hashes unions its elements in. -/
theorem foldl_insert_eq_union (l : List Hash) (s : Finset Hash) :
    l.foldl (fun s h => insert h s) s = s ∪ l.toFinset := by
  induction l generalizing s with
  | nil => simp
  | cons a t ih =>
    simp [List.foldl, ih, Finset.insert_union, Finset.union_insert]

/-- Claim C7: when the manifest fetch and decode succeed with manifest
`m`, `BlobSet` returns exactly the set containing `m`'s config digest
and every layer's distribution digest — `Finset` equality gives set
semantics (no duplicates, nothing else). -/
theorem blobSet_is_config_and_layers (i : Image) (w : World)
    (resp : Response) (m : Manifest)
    (hc : w.client i.manifestRequest = Except.ok resp)
    (hp : w.parseManifest resp.body = Except.ok m) :
    (i.blobSet w).fst =
      Except.ok (insert m.config.digest (m.layers.map Descriptor.digest).toFinset) := by
  have hman : i.manifest w = (Except.ok m, [i.manifestRequest]) := by
    unfold Image.manifest
    rw [hc]
    dsimp only
    rw [hp]
  unfold Image.blobSet Image.fsLayers Image.configName
  rw [hman]
  simp [foldl_insert_eq_union]

/-- Witness for C7 at the concrete test image: the blob set is the
config digest plus the single layer digest. -/
theorem blobSet_is_config_and_layers_witness :
    (testImage.blobSet testWorld).fst =
      Except.ok (insert testManifest.config.digest
        (testManifest.layers.map Descriptor.digest).toFinset) :=
  blobSet_is_config_and_layers testImage testWorld ⟨200, 100, [0]⟩ testManifest rfl rfl

/-- Claim C8: `UncompressedBlob` and `UncompressedLayer` fail with the
not-implemented error for every digest and every world, issuing no
request and returning no stream. -/
theorem uncompressed_accessors_always_fail (i : Image) (h : Hash) (w : World) :
    i.uncompressedBlob h w = (Except.error (Err.notImplemented "remote.UncompressedBlob" h), [])
    ∧ i.uncompressedLayer h w = (Except.error (Err.notImplemented "remote.UncompressedLayer" h), []) :=
  ⟨rfl, rfl⟩

/-- Claim C9: `MediaType` returns the `types.OCIManifestSchema1`
constant with a nil error and an empty request trace (no network
traffic), for every image and every world — in particular independent
of whatever manifest the world serves. -/
theorem mediaType_is_constant_no_request (i : Image) (w : World) :
    i.mediaType w = (Except.ok OCIManifestSchema1, []) :=
  rfl

/-- Claim C10: `BlobSize` returns the HEAD response's Content-Length
verbatim with a nil error whenever the request succeeds, regardless of
status code (the response's status is unconstrained here, and the
content length may be `-1`), and returns `-1` paired with the error
when the request itself fails; the response body — hence the blob
itself — is never inspected. -/
theorem blobSize_is_contentLength_verbatim (i : Image) (h : Hash) (w : World) :
    (∀ resp, w.client (i.blobRequest Method.HEAD h) = Except.ok resp →
      i.blobSize h w = ((resp.contentLength, none), [i.blobRequest Method.HEAD h]))
    ∧ (∀ e, w.client (i.blobRequest Method.HEAD h) = Except.error e →
      i.blobSize h w = ((-1, some (Err.net e)), [i.blobRequest Method.HEAD h])) := by
  constructor
  · intro resp hresp
    unfold Image.blobSize
    rw [hresp]
  · intro e herr
    unfold Image.blobSize
    rw [herr]

/-- Witness for C10: a successful HEAD yields its Content-Length with a
nil error, and a failing request yields `-1` paired with the error. -/
theorem blobSize_is_contentLength_verbatim_witness :
    testImage.blobSize hConfig testWorld
      = ((50, none), [testImage.blobRequest Method.HEAD hConfig])
    ∧ testImage.blobSize hConfig failWorld
      = ((-1, some (Err.net "connection refused")), [testImage.blobRequest Method.HEAD hConfig]) :=
  ⟨(blobSize_is_contentLength_verbatim testImage hConfig testWorld).left ⟨200, 50, [1]⟩ rfl,
   (blobSize_is_contentLength_verbatim testImage hConfig failWorld).right "connection refused" rfl⟩

/-- A concrete reference for the transport fixtures. -/
def testRef : Reference :=
  ⟨"registry.example.com", "library/repo", "latest",
   fun action => "repository:library/repo:" ++ action⟩

/-- A concrete credential for the transport fixtures. -/
def testAuth : Authenticator := ⟨"user", "pass"⟩

/-- A token exchange that always fails with a network error. -/
def failRefresh : RefreshFn := fun _ _ _ _ => Except.error (Err.net "exchange refused")

/-- A token exchange that always succeeds with a fixed token. -/
def okRefresh : RefreshFn := fun _ _ _ _ => Except.ok "tok123"

/-- Claim C3: a ping answered with HTTP 200 classifies the challenge as
anonymous and `New` returns the caller-supplied base transport
unmodified; that transport attaches no `Authorization` header to any
request. -/
theorem new_http200_returns_base_unmodified (ref : Reference)
    (auth : Authenticator) (po : PingOutcome) (a : String) (refresh : RefreshFn)
    (h200 : po.status = 200) :
    ping po = Except.ok ⟨ChallengeKind.anonymous, []⟩
    ∧ New ref auth po a refresh = Except.ok Transport.base
    ∧ Transport.base.authorizationHeader = none := by
  have hping : ping po = Except.ok ⟨ChallengeKind.anonymous, []⟩ := by
    unfold ping
    rw [h200]
    simp
  refine ⟨hping, ?_, rfl⟩
  unfold New
  rw [hping]

/-- Witness for C3 at a concrete 200 ping outcome. -/
theorem new_http200_returns_base_unmodified_witness :
    ping ⟨200, none⟩ = Except.ok ⟨ChallengeKind.anonymous, []⟩
    ∧ New testRef testAuth ⟨200, none⟩ "pull" failRefresh = Except.ok Transport.base
    ∧ Transport.base.authorizationHeader = none :=
  new_http200_returns_base_unmodified testRef testAuth ⟨200, none⟩ "pull" failRefresh rfl

/-- Claim C4: a ping answered with HTTP 401 and a Bearer challenge
whose parameters lack `realm` makes `New` fail with the
malformed-www-authenticate handshake error; no transport is returned. -/
theorem new_bearer_missing_realm_fails (ref : Reference)
    (auth : Authenticator) (a : String) (refresh : RefreshFn)
    (params : List (String × String))
    (hr : params.lookup "realm" = none) :
    New ref auth ⟨401, some ("Bearer", params)⟩ a refresh =
      Except.error (Err.authHandshakeFailed "malformed www-authenticate, missing realm") := by
  have hping : ping ⟨401, some ("Bearer", params)⟩ =
      Except.ok ⟨ChallengeKind.bearer, params⟩ := rfl
  unfold New
  rw [hping]
  dsimp only
  rw [hr]

/-- Witness for C4 with a Bearer challenge carrying only `service`. -/
theorem new_bearer_missing_realm_fails_witness :
    New testRef testAuth ⟨401, some ("Bearer", [("service", "s")])⟩ "pull" failRefresh =
      Except.error (Err.authHandshakeFailed "malformed www-authenticate, missing realm") :=
  new_bearer_missing_realm_fails testRef testAuth "pull" failRefresh [("service", "s")] rfl

/-- Claim C5: with a Bearer challenge carrying a realm, `New` performs
the initial token exchange against that realm (with the derived service
and scope) before returning: a failed exchange makes `New` return that
exact error and no transport, a successful one returns the bearer
transport seeded with the obtained token. -/
theorem new_bearer_initial_exchange_gates (ref : Reference)
    (auth : Authenticator) (a : String) (refresh : RefreshFn)
    (params : List (String × String)) (realm : String)
    (hr : params.lookup "realm" = some realm) :
    (∀ e, refresh realm ((params.lookup "service").getD ref.registry) (ref.scopeOf a) auth
        = Except.error e →
      New ref auth ⟨401, some ("Bearer", params)⟩ a refresh = Except.error e)
    ∧ (∀ tok, refresh realm ((params.lookup "service").getD ref.registry) (ref.scopeOf a) auth
        = Except.ok tok →
      New ref auth ⟨401, some ("Bearer", params)⟩ a refresh =
        Except.ok (Transport.bearerT auth realm
          ((params.lookup "service").getD ref.registry) (ref.scopeOf a) tok)) := by
  have hping : ping ⟨401, some ("Bearer", params)⟩ =
      Except.ok ⟨ChallengeKind.bearer, params⟩ := rfl
  constructor
  · intro e he
    unfold New
    rw [hping]
    dsimp only
    rw [hr]
    dsimp only
    rw [he]
  · intro tok htok
    unfold New
    rw [hping]
    dsimp only
    rw [hr]
    dsimp only
    rw [htok]

/-- Witness for C5: a failing exchange aborts construction with the
exchange's error; a succeeding one yields the seeded bearer transport. -/
theorem new_bearer_initial_exchange_gates_witness :
    New testRef testAuth ⟨401, some ("Bearer", [("realm", "https://auth.example.com/token")])⟩
        "pull" failRefresh = Except.error (Err.net "exchange refused")
    ∧ New testRef testAuth ⟨401, some ("Bearer", [("realm", "https://auth.example.com/token")])⟩
        "pull" okRefresh =
      Except.ok (Transport.bearerT testAuth "https://auth.example.com/token"
        "registry.example.com" "repository:library/repo:pull" "tok123") :=
  ⟨(new_bearer_initial_exchange_gates testRef testAuth "pull" failRefresh
      [("realm", "https://auth.example.com/token")] "https://auth.example.com/token" rfl).left
      (Err.net "exchange refused") rfl,
   (new_bearer_initial_exchange_gates testRef testAuth "pull" okRefresh
      [("realm", "https://auth.example.com/token")] "https://auth.example.com/token" rfl).right
      "tok123" rfl⟩

/-- Claim C6: in the Bearer branch the service parameter defaults to
the reference's registry host rendering when absent and is taken
verbatim when present, as witnessed by the service field of the
returned bearer transport. -/
theorem new_bearer_service_defaulting (ref : Reference)
    (auth : Authenticator) (a : String) (refresh : RefreshFn)
    (params : List (String × String)) (realm tok : String)
    (hr : params.lookup "realm" = some realm)
    (htok : ∀ service, refresh realm service (ref.scopeOf a) auth = Except.ok tok) :
    (params.lookup "service" = none →
      New ref auth ⟨401, some ("Bearer", params)⟩ a refresh =
        Except.ok (Transport.bearerT auth realm ref.registry (ref.scopeOf a) tok))
    ∧ (∀ v, params.lookup "service" = some v →
      New ref auth ⟨401, some ("Bearer", params)⟩ a refresh =
        Except.ok (Transport.bearerT auth realm v (ref.scopeOf a) tok)) := by
  have hping : ping ⟨401, some ("Bearer", params)⟩ =
      Except.ok ⟨ChallengeKind.bearer, params⟩ := rfl
  constructor
  · intro hs
    unfold New
    rw [hping]
    dsimp only
    rw [hr]
    dsimp only
    rw [hs]
    dsimp only [Option.getD]
    rw [htok]
  · intro v hs
    unfold New
    rw [hping]
    dsimp only
    rw [hr]
    dsimp only
    rw [hs]
    dsimp only [Option.getD]
    rw [htok]

/-- Witness for C6: with no service parameter the bearer transport's
service is the registry host; with one it is the given value. -/
theorem new_bearer_service_defaulting_witness :
    New testRef testAuth ⟨401, some ("Bearer", [("realm", "r")])⟩ "pull" okRefresh =
      Except.ok (Transport.bearerT testAuth "r" "registry.example.com"
        "repository:library/repo:pull" "tok123")
    ∧ New testRef testAuth ⟨401, some ("Bearer", [("realm", "r"), ("service", "svc")])⟩
        "pull" okRefresh =
      Except.ok (Transport.bearerT testAuth "r" "svc"
        "repository:library/repo:pull" "tok123") :=
  ⟨(new_bearer_service_defaulting testRef testAuth "pull" okRefresh
      [("realm", "r")] "r" "tok123" rfl (fun _ => rfl)).left rfl,
   (new_bearer_service_defaulting testRef testAuth "pull" okRefresh
      [("realm", "r"), ("service", "svc")] "r" "tok123" rfl (fun _ => rfl)).right "svc" rfl⟩

end ContainerRegistry
